import Mathlib

/-!
Verification of the multi-source IP geolocation resolution and reconciliation
engine of `Location-Tracker.py`.

The Python code is shallowly embedded as follows.

* Python dict values occurring in the engine (strings, ints, floats) become
  the inductive type `PValue`.  Python floats are modelled as rationals: every
  concrete computation checked here (means of small integer coordinates) is
  exact in IEEE double precision, so the rational model agrees with the float
  semantics on all inputs appearing in the theorems.
* Python dicts become association lists (`Record`) with first-match lookup
  (`rget`) and Python's replace-in-place-or-append assignment (`rset`).
* The HTTP layer is abstracted: an adapter call is modelled by the decoded
  JSON body it would have produced (`data : Record`), and the multi-source
  orchestrator takes a `fetch : String → Option Record` oracle giving, for
  each provider name, either its successfully normalized record or `none`
  for any failure (timeout, HTTP error, malformed body).  Python exceptions
  escaping a provider call are exactly the `none` results; all embedded
  functions are total, matching the fact that `get_location_multi_source`
  catches provider-level exceptions and never raises for partial failure.
* `float(...)` / `int(...)` string parsing is modelled for ASCII input
  (optional surrounding whitespace, optional sign, digits with single
  underscores between digit groups, and for floats an optional fractional
  part and exponent); non-ASCII numerals and `inf`/`nan` are not modelled.
-/

namespace IPTracker

/-- A Python value as it occurs in the geolocation engine's dicts. -/
inductive PValue where
  | vStr (s : String)
  | vInt (n : Int)
  | vFloat (q : Rat)
deriving DecidableEq, Repr

/-- A Python dict with string keys, as an insertion-ordered association list. -/
abbrev Record := List (String × PValue)

/-- Dict lookup: first binding of the key (keys are unique under `rset`). -/
def rget (r : Record) (k : String) : Option PValue :=
  match r with
  | [] => none
  | (k2, v) :: rest => if k2 = k then some v else rget rest k

/-- Dict assignment `r[k] = v`: replace the existing binding in place, else append. -/
def rset (r : Record) (k : String) (v : PValue) : Record :=
  match r with
  | [] => [(k, v)]
  | (k2, v2) :: rest => if k2 = k then (k2, v) :: rest else (k2, v2) :: rset rest k v

/-- One provider entry of `GeolocationAPI.APIS`: URL template and the mapping
from normalized keys to the provider's native JSON field names. -/
structure ProviderConfig where
  url : String
  fields : List (String × String)
deriving DecidableEq, Repr

/-- The `ipapi` entry of `GeolocationAPI.APIS`. -/
def ipapiConfig : ProviderConfig :=
  { url := "https://ipapi.co/{ip}/json/"
    fields := [("ip", "ip"), ("city", "city"), ("region", "region"),
               ("country", "country_name"), ("lat", "latitude"),
               ("lon", "longitude"), ("isp", "org"), ("timezone", "timezone")] }

/-- The `ipinfo` entry of `GeolocationAPI.APIS`; note `lat` and `lon` alias the
same native field `loc` (combined `"lat,lon"` string). -/
def ipinfoConfig : ProviderConfig :=
  { url := "https://ipinfo.io/{ip}/json"
    fields := [("ip", "ip"), ("city", "city"), ("region", "region"),
               ("country", "country"), ("lat", "loc"), ("lon", "loc"),
               ("isp", "org")] }

/-- The `geolocation` entry of `GeolocationAPI.APIS` (ip-api.com). -/
def geolocationConfig : ProviderConfig :=
  { url := "http://ip-api.com/json/{ip}"
    fields := [("ip", "query"), ("city", "city"), ("region", "regionName"),
               ("country", "country"), ("lat", "lat"), ("lon", "lon"),
               ("isp", "isp"), ("timezone", "timezone")] }

/-- `GeolocationAPI.APIS`, in source (insertion) order. -/
def APIS : List (String × ProviderConfig) :=
  [("ipapi", ipapiConfig), ("ipinfo", ipinfoConfig), ("geolocation", geolocationConfig)]

/-- Lines 317-318: `if api_name not in GeolocationAPI.APIS: api_name = 'ipapi'`. -/
def resolveApiName (api : String) : String :=
  if (APIS.lookup api).isSome then api else "ipapi"

/-- Line 320: `api_config = GeolocationAPI.APIS[api_name]` after the fallback. -/
def resolveConfig (api : String) : ProviderConfig :=
  (APIS.lookup (resolveApiName api)).getD ipapiConfig

/-! ### Exact rational arithmetic helpers

Python float arithmetic is modelled exactly over `Rat`.  The library's
`Rat.add`/`Rat.div` are `@[irreducible]`, which blocks kernel evaluation in
`decide` proofs, so the few operations the engine needs are spelled out via
the reducible smart constructor `mkRat`. -/

/-- The rational `n / 1`. -/
def qOfInt (n : Int) : Rat := mkRat n 1

/-- Exact rational addition. -/
def qadd (a b : Rat) : Rat :=
  mkRat (a.num * (b.den : Int) + b.num * (a.den : Int)) (a.den * b.den)

/-- Exact division of a rational by a natural number. -/
def qdivNat (a : Rat) (n : Nat) : Rat := mkRat a.num (a.den * n)

/-- Exact rational negation. -/
def qneg (a : Rat) : Rat := mkRat (-a.num) a.den

/-- Sum of a list of rationals, folded from `0` like Python's `sum`. -/
def qsum (l : List Rat) : Rat := l.foldl qadd (mkRat 0 1)

/-! ### Python numeric string parsing (`int(...)` / `float(...)`), ASCII model -/

/-- ASCII whitespace stripped by Python's `str.strip` / numeric constructors. -/
def isPySpace (c : Char) : Bool :=
  decide (c = ' ' ∨ c = '\t' ∨ c = '\n' ∨ c = '\r' ∨ c = '\x0b' ∨ c = '\x0c')

/-- ASCII decimal digit test. -/
def isDig (c : Char) : Bool :=
  decide (48 ≤ c.toNat ∧ c.toNat ≤ 57)

/-- Strip leading and trailing whitespace. -/
def pyStrip (l : List Char) : List Char :=
  ((l.dropWhile isPySpace).reverse.dropWhile isPySpace).reverse

/-- Value of a digit string (most significant first). -/
def digitsVal (l : List Char) : Nat :=
  l.foldl (fun a c => 10 * a + (c.toNat - 48)) 0

/-- Tail of a Python digit run after its first digit: digits with single
underscores allowed between digit groups (`10`, `1_0`; not `1_`, `1__0`). -/
def pyDigitsTail : List Char → Bool
  | [] => true
  | c :: cs =>
    if c = '_' then
      match cs with
      | [] => false
      | c2 :: cs2 => isDig c2 && pyDigitsTail cs2
    else isDig c && pyDigitsTail cs

/-- A nonempty Python digit run (underscore-separated digit groups). -/
def pyDigits : List Char → Bool
  | [] => false
  | c :: cs => isDig c && pyDigitsTail cs

/-- Numeric value of a digit run, ignoring underscores. -/
def undVal (l : List Char) : Nat :=
  digitsVal (l.filter (fun c => c != '_'))

/-- Sign-and-digits parsing of an already-stripped character list, as done by
`int(...)` on ASCII input. -/
def parseIntCore : List Char → Option Int
  | [] => none
  | c :: cs =>
    if c = '+' then (if pyDigits cs then some ((undVal cs : Nat) : Int) else none)
    else if c = '-' then (if pyDigits cs then some (-((undVal cs : Nat) : Int)) else none)
    else (if pyDigits (c :: cs) then some ((undVal (c :: cs) : Nat) : Int) else none)

/-- `int(s)` on ASCII input: strip whitespace, optional sign, digit run;
`none` models the `ValueError` caught by the caller. -/
def pyParseIntChars (l : List Char) : Option Int :=
  parseIntCore (pyStrip l)

/-- Split a character list on every occurrence of `sep`, Python `str.split(sep)`
semantics: `n` separators yield `n + 1` (possibly empty) parts. -/
def splitOnCh (sep : Char) : List Char → List (List Char)
  | [] => [[]]
  | c :: cs =>
    if c = sep then [] :: splitOnCh sep cs
    else
      match splitOnCh sep cs with
      | [] => [[c]]
      | g :: gs => (c :: g) :: gs

/-- Exponent of a float literal: optional sign then a digit run. -/
def parseExp (e : List Char) : Option Int :=
  match e with
  | '+' :: r => if pyDigits r then some ((undVal r : Nat) : Int) else none
  | '-' :: r => if pyDigits r then some (-((undVal r : Nat) : Int)) else none
  | r => if pyDigits r then some ((undVal r : Nat) : Int) else none

/-- Scale a rational by ten to an integer power (exactly). -/
def qmulPow10 (a : Rat) (e : Int) : Rat :=
  if 0 ≤ e then mkRat (a.num * ((10 : Nat) ^ e.toNat : Nat)) a.den
  else mkRat a.num (a.den * (10 : Nat) ^ (-e).toNat)

/-- Mantissa of a float literal: `digits`, `digits.`, `.digits` or
`digits.digits` (each digit run possibly with underscores). -/
def parseMantissa (m : List Char) : Option Rat :=
  match splitOnCh '.' m with
  | [ipart] => if pyDigits ipart then some (qOfInt (undVal ipart)) else none
  | [ipart, fpart] =>
    if ipart = [] && fpart = [] then none
    else if (ipart.isEmpty || pyDigits ipart) && (fpart.isEmpty || pyDigits fpart) then
      some (qadd (qOfInt (undVal ipart))
        (mkRat (undVal fpart) ((10 : Nat) ^ (fpart.filter (fun c => c != '_')).length)))
    else none
  | _ => none

/-- Unsigned float literal: mantissa with optional `e`/`E` exponent. -/
def parseFloatMag (l : List Char) : Option Rat :=
  match splitOnCh 'e' (l.map (fun c => if c = 'E' then 'e' else c)) with
  | [m] => parseMantissa m
  | [m, e] =>
    match parseMantissa m, parseExp e with
    | some mv, some ev => some (qmulPow10 mv ev)
    | _, _ => none
  | _ => none

/-- `float(s)` on ASCII decimal literals: strip, optional sign, magnitude;
`none` models the `ValueError` caught by the caller (`inf`/`nan` not modelled). -/
def pyParseFloat (s : String) : Option Rat :=
  match pyStrip s.data with
  | '+' :: r => parseFloatMag r
  | '-' :: r => (parseFloatMag r).map qneg
  | r => parseFloatMag r

/-! ### Per-provider normalization (`GeolocationAPI.get_location_by_ip`) -/

/-- Python `isinstance(value, (int, float))`. -/
def isNumVal : PValue → Bool
  | .vInt _ => true
  | .vFloat _ => true
  | .vStr _ => false

/-- Python `float(value)` on a numeric value. -/
def toRatVal : PValue → Rat
  | .vInt n => qOfInt n
  | .vFloat q => q
  | .vStr _ => 0

/-- Python `isinstance(value, str) and ',' in value`. -/
def isCommaStr : PValue → Bool
  | .vStr s => s.data.contains ','
  | _ => false

/-- Lines 342-344: `lat, lon = value.split(',')` followed by
`float(lat.strip())` and `float(lon.strip())`; `none` models the
`ValueError` (wrong part count or unparsable half) that makes the whole
adapter call return `None`. -/
def combinedParse : PValue → Option (Rat × Rat)
  | .vStr s =>
    match splitOnCh ',' s.data with
    | [a, b] =>
      match pyParseFloat (String.mk (pyStrip a)), pyParseFloat (String.mk (pyStrip b)) with
      | some la, some lo => some (la, lo)
      | _, _ => none
    | _ => none
  | _ => none

/-- The field-mapping loop of `get_location_by_ip` (lines 336-350), starting
from the stamped accumulator: for each `(field, api_field)` pair in mapping
order, a native value present in the body is normalized into the result;
`none` models an exception escaping to the adapter's `except` handler. -/
def applyFields (data : Record) : List (String × String) → Record → Option Record
  | [], acc => some acc
  | (field, apiField) :: rest, acc =>
    match rget data apiField with
    | none => applyFields data rest acc
    | some value =>
      if field = "lat" ∧ isCommaStr value then
        match combinedParse value with
        | some (la, lo) =>
          applyFields data rest (rset (rset acc "lat" (.vFloat la)) "lon" (.vFloat lo))
        | none => none
      else if field = "lon" ∧ (rget acc "lat").isSome then
        applyFields data rest acc
      else if (field = "lat" ∨ field = "lon") ∧ isNumVal value then
        applyFields data rest (rset acc field (.vFloat (toRatVal value)))
      else
        applyFields data rest (rset acc field value)

/-- Normalization of a decoded provider response: start from
`{'ip': ip_address, 'source': api_name}` (line 334) and run the mapping loop. -/
def normalizeResponse (ip name : String) (cfg : ProviderConfig) (data : Record) : Option Record :=
  applyFields data cfg.fields [("ip", .vStr ip), ("source", .vStr name)]

/-- `GeolocationAPI.get_location_by_ip` on a successfully fetched and decoded
body `data`: resolve the provider name (unknown names fall back to `ipapi`),
then normalize.  HTTP/JSON failures are modelled by the caller passing no
record at all. -/
def getLocationByIp (ip api : String) (data : Record) : Option Record :=
  normalizeResponse ip (resolveApiName api) (resolveConfig api) data

/-! ### Reconciliation and multi-source orchestration
(`GeolocationAPI.get_location_multi_source`, lines 358-395) -/

/-- Line 375: `[r['lat'] for r in results if 'lat' in r]`. -/
def latValues (results : List Record) : List PValue :=
  results.filterMap (fun r => rget r "lat")

/-- Line 376: `[r['lon'] for r in results if 'lon' in r]`. -/
def lonValues (results : List Record) : List PValue :=
  results.filterMap (fun r => rget r "lon")

/-- Numeric view of a value list; `none` models the `TypeError` raised by
`sum` on a non-numeric entry, caught by the surrounding `except`. -/
def numsOf : List PValue → Option (List Rat)
  | [] => some []
  | v :: rest =>
    if isNumVal v then (numsOf rest).map (fun l => toRatVal v :: l) else none

/-- `sum(xs) / len(xs)` as an exact rational. -/
def meanOf (l : List Rat) : Rat := qdivNat (qsum l) l.length

/-- Lines 375-380: the coordinate-averaging attempt; `none` when the guard
`if lats and lons` fails or the `except` catches a `TypeError` from `sum`. -/
def tryAverage (results : List Record) : Option (Rat × Rat) :=
  if latValues results = [] ∨ lonValues results = [] then none
  else
    match numsOf (latValues results), numsOf (lonValues results) with
    | some ls, some os => some (meanOf ls, meanOf os)
    | _, _ => none

/-- Lines 392-395: the first record with `accuracy = 'medium'` and the
success count. -/
def mediumResult (first : Record) (count : Nat) : Record :=
  rset (rset first "accuracy" (.vStr "medium")) "sources" (.vInt count)

/-- Lines 382-388: copy of the first record with averaged coordinates,
`accuracy = 'high'` and the success count. -/
def highResult (first : Record) (la lo : Rat) (count : Nat) : Record :=
  rset (rset (rset (rset first "lat" (.vFloat la)) "lon" (.vFloat lo))
    "accuracy" (.vStr "high")) "sources" (.vInt count)

/-- Lines 369-395 applied to the collected success list: `None` for an empty
list; the averaging branch only when more than one record was collected and
both coordinate lists are non-empty and numeric; otherwise the first record
with medium accuracy. -/
def reconcileRecords : List Record → Option Record
  | [] => none
  | [single] => some (mediumResult single 1)
  | first :: rest =>
    match tryAverage (first :: rest) with
    | some (la, lo) => some (highResult first la lo (rest.length + 1))
    | none => some (mediumResult first (rest.length + 1))

/-- All provider names in registry (insertion) order, as iterated by
`for api_name in GeolocationAPI.APIS.keys()`. -/
def registryNames : List String := APIS.map Prod.fst

/-- Lines 361-367: the collection loop. `fetch` is the per-provider outcome
oracle: `none` for any provider failure (timeout, HTTP error, malformed
body), which the loop silently skips; `some r` for a successfully normalized
record, which is appended in order. -/
def collectLoop (fetch : String → Option Record) : List String → List Record → List Record
  | [], acc => acc
  | name :: rest, acc =>
    match fetch name with
    | some r => collectLoop fetch rest (acc ++ [r])
    | none => collectLoop fetch rest acc

/-- `GeolocationAPI.get_location_multi_source`: collect per-provider
successes in registry order, then reconcile.  Totality of this function is
the model of "no exception escapes the call". -/
def getLocationMultiSource (fetch : String → Option Record) : Option Record :=
  reconcileRecords (collectLoop fetch registryNames [])

/-! ### IP validation and `track_ip` -/

/-- `AdvancedLocationTracker._validate_ip` (lines 869-880): split on `'.'`,
require exactly four parts, require `0 <= int(part) <= 255` for each; any
`ValueError` from `int` yields `False` via the `except`. -/
def validateIp (ip : String) : Bool :=
  let parts := splitOnCh '.' ip.data
  parts.length == 4 && parts.all fun p =>
    match pyParseIntChars p with
    | some n => decide (0 ≤ n) && decide (n ≤ 255)
    | none => false

/-- `AdvancedLocationTracker.track_ip` (lines 708-727): validate first and
return `None` without touching any provider on failure, otherwise resolve
through the multi-source orchestrator (display/persistence side effects are
out of scope). -/
def trackIp (fetch : String → Option Record) (ip : String) : Option Record :=
  if validateIp ip then getLocationMultiSource fetch else none

/-- Modelled from the spec for the refinement comparison in the IP-validation
claim: a string "consisting of exactly four dot-separated integer octets each
in [0,255]", read as four all-digit parts with values at most 255. -/
def specIPv4Shaped (s : String) : Bool :=
  let parts := splitOnCh '.' s.data
  parts.length == 4 && parts.all fun p =>
    !p.isEmpty && p.all isDig && decide (digitsVal p ≤ 255)

/-! ### Dict lemmas -/

theorem rget_rset_self (r : Record) (k : String) (v : PValue) :
    rget (rset r k v) k = some v := by
  induction r with
  | nil => simp [rset, rget]
  | cons p rest ih =>
    obtain ⟨k2, v2⟩ := p
    by_cases h : k2 = k
    · simp [rset, h, rget]
    · simp [rset, h, rget, ih]

theorem rget_rset_ne (r : Record) (k k' : String) (v : PValue) (h : k' ≠ k) :
    rget (rset r k v) k' = rget r k' := by
  induction r with
  | nil =>
    simp only [rset, rget]
    rw [if_neg (Ne.symm h)]
  | cons p rest ih =>
    obtain ⟨k2, v2⟩ := p
    by_cases h2 : k2 = k
    · subst h2
      simp only [rset, if_pos rfl, rget]
      rw [if_neg (fun e => h e.symm), if_neg (fun e => h e.symm)]
    · simp only [rset, if_neg h2, rget]
      by_cases h3 : k2 = k'
      · rw [if_pos h3, if_pos h3]
      · rw [if_neg h3, if_neg h3, ih]

theorem rget_rset_isSome (r : Record) (k k' : String) (v : PValue)
    (h : (rget r k').isSome) : (rget (rset r k v) k').isSome := by
  by_cases he : k' = k
  · subst he
    simp [rget_rset_self]
  · rwa [rget_rset_ne r k k' v he]

/-! ### Collection-loop lemmas -/

theorem collectLoop_eq (fetch : String → Option Record) :
    ∀ (names : List String) (acc : List Record),
      collectLoop fetch names acc = acc ++ names.filterMap fetch := by
  intro names
  induction names with
  | nil => intro acc; simp [collectLoop]
  | cons n rest ih =>
    intro acc
    cases h : fetch n with
    | none => simp [collectLoop, h, ih]
    | some r => simp [collectLoop, h, ih]

/-! ### Normalization-loop lemmas -/

theorem applyFields_rget_isSome (data : Record) :
    ∀ (fields : List (String × String)) (acc out : Record) (k : String),
      applyFields data fields acc = some out →
      (rget acc k).isSome → (rget out k).isSome := by
  intro fields
  induction fields with
  | nil =>
    intro acc out k h hk
    simp only [applyFields, Option.some.injEq] at h
    exact h ▸ hk
  | cons fa rest ih =>
    obtain ⟨field, apiField⟩ := fa
    intro acc out k h hk
    rw [applyFields] at h
    split at h
    · exact ih acc out k h hk
    · split_ifs at h with h1 h2 h3
      · split at h
        · exact ih _ out k h (rget_rset_isSome _ _ _ _ (rget_rset_isSome _ _ _ _ hk))
        · exact Option.noConfusion h
      · exact ih acc out k h hk
      · exact ih _ out k h (rget_rset_isSome _ _ _ _ hk)
      · exact ih _ out k h (rget_rset_isSome _ _ _ _ hk)

theorem applyFields_rget_eq (data : Record) :
    ∀ (fields : List (String × String)) (acc out : Record) (k : String),
      applyFields data fields acc = some out →
      k ≠ "lat" → k ≠ "lon" →
      (∀ f af, (f, af) ∈ fields → f ≠ k ∨ rget data af = none) →
      rget out k = rget acc k := by
  intro fields
  induction fields with
  | nil =>
    intro acc out k h _ _ _
    simp only [applyFields, Option.some.injEq] at h
    exact h ▸ rfl
  | cons fa rest ih =>
    obtain ⟨field, apiField⟩ := fa
    intro acc out k h hlat hlon hfree
    have hrest : ∀ f af, (f, af) ∈ rest → f ≠ k ∨ rget data af = none :=
      fun f af hm => hfree f af (List.mem_cons_of_mem _ hm)
    cases hv : rget data apiField with
    | none =>
      simp only [applyFields, hv] at h
      exact ih acc out k h hlat hlon hrest
    | some value =>
      simp only [applyFields, hv] at h
      have hfk : field ≠ k := by
        rcases hfree field apiField (List.mem_cons_self _ _) with hne | habs
        · exact hne
        · rw [habs] at hv; exact absurd hv (by simp)
      split_ifs at h with h1 h2 h3
      · cases hc : combinedParse value with
        | none =>
          simp only [hc] at h
          exact Option.noConfusion h
        | some p =>
          obtain ⟨la, lo⟩ := p
          simp only [hc] at h
          rw [ih _ out k h hlat hlon hrest, rget_rset_ne _ _ _ _ hlon,
            rget_rset_ne _ _ _ _ hlat]
      · exact ih acc out k h hlat hlon hrest
      · rw [ih _ out k h hlat hlon hrest, rget_rset_ne _ _ _ _ (fun e => hfk e.symm)]
      · rw [ih _ out k h hlat hlon hrest, rget_rset_ne _ _ _ _ (fun e => hfk e.symm)]

/-- Every successful adapter result carries the `ip` and `source` keys. -/
theorem getLocationByIp_keys (ip api : String) (data rec : Record)
    (h : getLocationByIp ip api data = some rec) :
    (rget rec "ip").isSome ∧ (rget rec "source").isSome := by
  unfold getLocationByIp normalizeResponse at h
  constructor
  · exact applyFields_rget_isSome data _ _ rec "ip" h (by simp [rget])
  · exact applyFields_rget_isSome data _ _ rec "source" h (by simp [rget])

/-! ### Registry lemmas -/

theorem APIS_lookup_cases (api : String) (cfg : ProviderConfig)
    (h : APIS.lookup api = some cfg) :
    cfg = ipapiConfig ∨ cfg = ipinfoConfig ∨ cfg = geolocationConfig := by
  simp only [APIS, List.lookup] at h
  by_cases h1 : api == "ipapi"
  · simp [h1] at h; exact Or.inl h.symm
  · by_cases h2 : api == "ipinfo"
    · simp [h1, h2] at h; exact Or.inr (Or.inl h.symm)
    · by_cases h3 : api == "geolocation"
      · simp [h1, h2, h3] at h; exact Or.inr (Or.inr h.symm)
      · simp [h1, h2, h3] at h

theorem resolveConfig_cases (api : String) :
    resolveConfig api = ipapiConfig ∨ resolveConfig api = ipinfoConfig ∨
      resolveConfig api = geolocationConfig := by
  unfold resolveConfig resolveApiName
  cases h : APIS.lookup api with
  | none => simp [h]; decide
  | some cfg =>
    simp [h]
    exact APIS_lookup_cases api cfg h

/-- No provider field map targets the `source` key. -/
theorem fields_no_src (api : String) :
    ((resolveConfig api).fields.all (fun p => p.1 != "source")) = true := by
  rcases resolveConfig_cases api with h | h | h <;> rw [h] <;> decide

theorem resolveApiName_of_lookup_none (api : String) (h : APIS.lookup api = none) :
    resolveApiName api = "ipapi" := by
  unfold resolveApiName
  rw [h]
  rfl

theorem resolveApiName_of_lookup_some (api : String) (cfg : ProviderConfig)
    (h : APIS.lookup api = some cfg) : resolveApiName api = api := by
  unfold resolveApiName
  rw [h]
  rfl

theorem resolveConfig_of_lookup_none (api : String) (h : APIS.lookup api = none) :
    resolveConfig api = ipapiConfig := by
  unfold resolveConfig
  rw [resolveApiName_of_lookup_none api h]
  rfl

theorem resolveConfig_of_lookup_some (api : String) (cfg : ProviderConfig)
    (h : APIS.lookup api = some cfg) : resolveConfig api = cfg := by
  unfold resolveConfig
  rw [resolveApiName_of_lookup_some api cfg h, h]
  rfl

/-! ### Claim theorems -/

/-- Claim C1: the spec's invariant that a reconciled result carries `lat` and
`lon` both or neither is violated by the code: for the `ipapi` provider, a
body supplying distinct numeric `latitude` and `longitude` fields is
normalized to a record with `lat` only (the `lon` mapping is skipped because
`lat` is already present), and single-success multi-source resolution then
returns that partial record with `accuracy`/`sources` appended — a
`ReconciledResult` with `lat` present and `lon` absent. -/
theorem reconciled_partial_coordinates :
    getLocationByIp "1.2.3.4" "ipapi"
        [("latitude", PValue.vInt 10), ("longitude", PValue.vInt 20)] =
      some [("ip", PValue.vStr "1.2.3.4"), ("source", PValue.vStr "ipapi"),
        ("lat", PValue.vFloat 10)] ∧
    getLocationMultiSource (fun name => if name = "ipapi"
        then some [("ip", PValue.vStr "1.2.3.4"), ("source", PValue.vStr "ipapi"),
          ("lat", PValue.vFloat 10)]
        else none) =
      some [("ip", PValue.vStr "1.2.3.4"), ("source", PValue.vStr "ipapi"),
        ("lat", PValue.vFloat 10), ("accuracy", PValue.vStr "medium"),
        ("sources", PValue.vInt 1)] ∧
    (rget [("ip", PValue.vStr "1.2.3.4"), ("source", PValue.vStr "ipapi"),
        ("lat", PValue.vFloat 10), ("accuracy", PValue.vStr "medium"),
        ("sources", PValue.vInt 1)] "lat").isSome = true ∧
    rget [("ip", PValue.vStr "1.2.3.4"), ("source", PValue.vStr "ipapi"),
        ("lat", PValue.vFloat 10), ("accuracy", PValue.vStr "medium"),
        ("sources", PValue.vInt 1)] "lon" = none := by
  decide

/-- Claim C2: the `lon` skip is NOT restricted to the combined-field case.
For `ipapi`, whose field map assigns the distinct native fields `latitude`
and `longitude` to `lat` and `lon`, a body supplying both as numbers yields
a normalized record in which `lon` is missing: line 345's condition
`field == 'lon' and 'lat' in result` fires as soon as `lat` was set, even
though it was set from a separate numeric field, contradicting the line's
own `# Already handled` intent. -/
theorem lon_skipped_for_distinct_fields :
    ipapiConfig.fields.lookup "lat" = some "latitude" ∧
    ipapiConfig.fields.lookup "lon" = some "longitude" ∧
    ("latitude" : String) ≠ "longitude" ∧
    getLocationByIp "5.6.7.8" "ipapi"
        [("latitude", PValue.vInt 33), ("longitude", PValue.vInt 44)] =
      some [("ip", PValue.vStr "5.6.7.8"), ("source", PValue.vStr "ipapi"),
        ("lat", PValue.vFloat 33)] ∧
    rget [("ip", PValue.vStr "5.6.7.8"), ("source", PValue.vStr "ipapi"),
        ("lat", PValue.vFloat 33)] "lon" = none := by
  decide

/-- Claim C3: reconciling `[{lat:10, lon:20, source:A}, {lat:12, lon:22,
source:B}]` gives the coordinate means `lat=11.0, lon=21.0`,
`accuracy="high"`, `sources=2`, with the non-coordinate fields of record A
(the first in registry order) preserved; and each mean is computed only over
the records supplying that coordinate (second conjunct: a record missing
`lon` still contributes its `lat` to the latitude mean while the `lon` mean
ranges over the single supplier). -/
theorem reconcile_two_records_mean :
    reconcileRecords [[("lat", PValue.vInt 10), ("lon", PValue.vInt 20),
        ("source", PValue.vStr "A")],
      [("lat", PValue.vInt 12), ("lon", PValue.vInt 22), ("source", PValue.vStr "B")]] =
      some [("lat", PValue.vFloat 11), ("lon", PValue.vFloat 21),
        ("source", PValue.vStr "A"), ("accuracy", PValue.vStr "high"),
        ("sources", PValue.vInt 2)] ∧
    reconcileRecords [[("lat", PValue.vInt 10), ("source", PValue.vStr "A")],
      [("lat", PValue.vInt 12), ("lon", PValue.vInt 22), ("source", PValue.vStr "B")]] =
      some [("lat", PValue.vFloat 11), ("source", PValue.vStr "A"),
        ("lon", PValue.vFloat 22), ("accuracy", PValue.vStr "high"),
        ("sources", PValue.vInt 2)] := by
  decide

/-- Claim C4 counterexample: for `[{city:"X", source:A}, {lat:1, lon:1,
source:B}]`, where only record B supplies coordinates, the code does NOT
fall back to medium accuracy: the guard `if lats and lons` only asks for the
two collected coordinate lists to be non-empty, so it averages B's
coordinates onto A's metadata and labels the result `high`. -/
theorem reconcile_single_supplier_counterexample :
    ∃ res, reconcileRecords [[("city", PValue.vStr "X"), ("source", PValue.vStr "A")],
        [("lat", PValue.vInt 1), ("lon", PValue.vInt 1), ("source", PValue.vStr "B")]] =
        some res ∧
      rget res "accuracy" = some (PValue.vStr "high") ∧
      ¬rget res "accuracy" = some (PValue.vStr "medium") :=
  ⟨[("city", PValue.vStr "X"), ("source", PValue.vStr "A"), ("lat", PValue.vFloat 1),
    ("lon", PValue.vFloat 1), ("accuracy", PValue.vStr "high"), ("sources", PValue.vInt 2)],
    by decide⟩

/-- Claim C4 as amended: with `[{city:"X", source:A}, {lat:1, lon:1,
source:B}]`, aggregation proceeds because the collected `lat` list and `lon`
list are each non-empty (even though a single record supplied them): the
result copies `city="X"` and `source` from the first record, carries the
averaged `lat=1.0, lon=1.0`, `accuracy="high"`, and `sources=2` for the
total successful-provider count. -/
theorem reconcile_single_supplier_aggregates :
    reconcileRecords [[("city", PValue.vStr "X"), ("source", PValue.vStr "A")],
        [("lat", PValue.vInt 1), ("lon", PValue.vInt 1), ("source", PValue.vStr "B")]] =
      some [("city", PValue.vStr "X"), ("source", PValue.vStr "A"),
        ("lat", PValue.vFloat 1), ("lon", PValue.vFloat 1),
        ("accuracy", PValue.vStr "high"), ("sources", PValue.vInt 2)] := by
  decide

/-- Claim C5 counterexample: the queried address does not always survive
normalization: `result` starts as `{'ip': ip_address, ...}` (line 334) but
the mapping loop overwrites `result['ip']` with whatever the provider echoes
under its native ip field, so a body echoing `9.9.9.9` for the query
`1.2.3.4` yields a record whose `ip` is `9.9.9.9`. -/
theorem ip_overwritten_by_echo_counterexample :
    getLocationByIp "1.2.3.4" "ipapi" [("ip", PValue.vStr "9.9.9.9")] =
      some [("ip", PValue.vStr "9.9.9.9"), ("source", PValue.vStr "ipapi")] ∧
    PValue.vStr "9.9.9.9" ≠ PValue.vStr "1.2.3.4" := by
  decide

/-- Claim C6: multi-source resolution equals reconciliation of exactly the
successful providers' records taken in registry order, for every failure
pattern (first conjunct); in particular, when the middle provider `ipinfo`
fails, the result is what the remaining registry order `[ipapi,
geolocation]` alone would produce (second conjunct).  Both sides are total
functions: no exception escapes the orchestrator in the model. -/
theorem multi_source_matches_reconcile :
    ∀ fetch : String → Option Record,
      getLocationMultiSource fetch = reconcileRecords (registryNames.filterMap fetch) ∧
      (fetch "ipinfo" = none →
        getLocationMultiSource fetch =
          reconcileRecords (List.filterMap fetch ["ipapi", "geolocation"])) := by
  intro fetch
  have h1 : getLocationMultiSource fetch =
      reconcileRecords (registryNames.filterMap fetch) := by
    unfold getLocationMultiSource
    rw [collectLoop_eq, List.nil_append]
  refine ⟨h1, fun hB => ?_⟩
  rw [h1]
  congr 1
  show List.filterMap fetch ["ipapi", "ipinfo", "geolocation"] =
    List.filterMap fetch ["ipapi", "geolocation"]
  cases hA : fetch "ipapi" <;> cases hC : fetch "geolocation" <;>
    simp [List.filterMap_cons, hA, hB, hC]

/-- Witness for C6 at a concrete failure pattern: provider A (`ipapi`)
succeeds, B (`ipinfo`) times out, C (`geolocation`) succeeds. -/
theorem multi_source_matches_reconcile_witness :
    getLocationMultiSource (fun name =>
        if name = "ipinfo" then none
        else some [("ip", PValue.vStr "1.2.3.4"), ("source", PValue.vStr name)]) =
      reconcileRecords (List.filterMap (fun name =>
        if name = "ipinfo" then none
        else some [("ip", PValue.vStr "1.2.3.4"), ("source", PValue.vStr name)])
        ["ipapi", "geolocation"]) :=
  (multi_source_matches_reconcile _).2 rfl

/-- Claim C7: if every configured provider fails, multi-source resolution
returns `none` — not an error (the function is total) and not a partial
record. -/
theorem multi_source_all_fail_none :
    ∀ fetch : String → Option Record,
      (∀ name ∈ registryNames, fetch name = none) → getLocationMultiSource fetch = none := by
  intro fetch h
  unfold getLocationMultiSource
  rw [collectLoop_eq, List.nil_append, List.filterMap_eq_nil_iff.mpr h]
  rfl

/-- Witness for C7: the all-providers-fail oracle. -/
theorem multi_source_all_fail_none_witness :
    getLocationMultiSource (fun _ => none) = none :=
  multi_source_all_fail_none _ (fun _ _ => rfl)

/-- Claim C9: a single-provider resolution with a name absent from the
provider table proceeds with the default `ipapi` configuration (and `ipapi`
source stamp) instead of failing, and a configured name uses its own
configuration. -/
theorem provider_fallback_default :
    ∀ (api ip : String) (data : Record),
      (APIS.lookup api = none →
        getLocationByIp ip api data = getLocationByIp ip "ipapi" data) ∧
      (∀ cfg, APIS.lookup api = some cfg →
        getLocationByIp ip api data = normalizeResponse ip api cfg data) := by
  intro api ip data
  constructor
  · intro h
    unfold getLocationByIp
    rw [resolveApiName_of_lookup_none api h, resolveConfig_of_lookup_none api h,
      resolveApiName_of_lookup_some "ipapi" ipapiConfig rfl,
      resolveConfig_of_lookup_some "ipapi" ipapiConfig rfl]
  · intro cfg h
    unfold getLocationByIp
    rw [resolveApiName_of_lookup_some api cfg h, resolveConfig_of_lookup_some api cfg h]

/-- Witness for C9: the unknown name `typo` resolves like `ipapi`, and the
configured name `ipinfo` uses its own configuration. -/
theorem provider_fallback_default_witness :
    getLocationByIp "1.2.3.4" "typo" [] = getLocationByIp "1.2.3.4" "ipapi" [] ∧
    getLocationByIp "1.2.3.4" "ipinfo" [] =
      normalizeResponse "1.2.3.4" "ipinfo" ipinfoConfig [] :=
  ⟨(provider_fallback_default "typo" "1.2.3.4" []).1 (by decide),
    (provider_fallback_default "ipinfo" "1.2.3.4" []).2 ipinfoConfig (by decide)⟩

/-- Claim C5 as amended: every successful adapter call stamps `source` with
the resolved provider identifier, and `ip` equals the queried address
whenever the response body does not supply the provider's native ip field;
when the body does supply it, the echoed value overwrites the stamp (see the
counterexample). -/
theorem source_stamped_ip_conditional :
    ∀ (ip api : String) (data rec : Record), getLocationByIp ip api data = some rec →
      rget rec "source" = some (PValue.vStr (resolveApiName api)) ∧
      ((∀ af, ("ip", af) ∈ (resolveConfig api).fields → rget data af = none) →
        rget rec "ip" = some (PValue.vStr ip)) := by
  intro ip api data rec h
  unfold getLocationByIp normalizeResponse at h
  constructor
  · have hfree : ∀ f af, (f, af) ∈ (resolveConfig api).fields →
        f ≠ "source" ∨ rget data af = none := by
      intro f af hm
      have hall := List.all_eq_true.mp (fields_no_src api) (f, af) hm
      exact Or.inl (by simpa using hall)
    rw [applyFields_rget_eq data _ _ rec "source" h (by decide) (by decide) hfree]
    simp [rget]
  · intro hip
    have hfree : ∀ f af, (f, af) ∈ (resolveConfig api).fields →
        f ≠ "ip" ∨ rget data af = none := by
      intro f af hm
      by_cases hf : f = "ip"
      · exact Or.inr (hip af (hf ▸ hm))
      · exact Or.inl hf
    rw [applyFields_rget_eq data _ _ rec "ip" h (by decide) (by decide) hfree]
    simp [rget]

/-- Witness for the amended C5 at a body without a native ip field. -/
theorem source_stamped_ip_conditional_witness :
    rget [("ip", PValue.vStr "1.2.3.4"), ("source", PValue.vStr "ipapi")] "source" =
      some (PValue.vStr (resolveApiName "ipapi")) ∧
    rget [("ip", PValue.vStr "1.2.3.4"), ("source", PValue.vStr "ipapi")] "ip" =
      some (PValue.vStr "1.2.3.4") := by
  have h := source_stamped_ip_conditional "1.2.3.4" "ipapi" []
    [("ip", PValue.vStr "1.2.3.4"), ("source", PValue.vStr "ipapi")] (by decide)
  exact ⟨h.1, h.2 (fun af _ => rfl)⟩

/-- Claim C10: every non-`none` multi-source result built from successful
adapter records carries the keys `ip`, `source`, `accuracy` and `sources`,
with `accuracy` either `high` or `medium` and `sources` the number of
providers that answered successfully, in all branches. -/
theorem multi_source_result_shape :
    ∀ (ipq : String) (fetch : String → Option Record),
      (∀ name r, fetch name = some r → ∃ data, getLocationByIp ipq name data = some r) →
      ∀ res, getLocationMultiSource fetch = some res →
        (rget res "ip").isSome = true ∧ (rget res "source").isSome = true ∧
        (rget res "accuracy" = some (PValue.vStr "high") ∨
          rget res "accuracy" = some (PValue.vStr "medium")) ∧
        rget res "sources" = some (PValue.vInt (registryNames.filterMap fetch).length) := by
  intro ipq fetch H res h
  unfold getLocationMultiSource at h
  rw [collectLoop_eq, List.nil_append] at h
  cases hr : registryNames.filterMap fetch with
  | nil =>
    rw [hr] at h
    exact absurd h (by simp [reconcileRecords])
  | cons first rest =>
    have hmem : first ∈ registryNames.filterMap fetch := by
      rw [hr]
      exact List.mem_cons_self _ _
    obtain ⟨name, -, hf⟩ := List.mem_filterMap.mp hmem
    obtain ⟨data, hdata⟩ := H name first hf
    obtain ⟨hip, hsrc⟩ := getLocationByIp_keys ipq name data first hdata
    rw [hr] at h
    cases rest with
    | nil =>
      simp only [reconcileRecords, Option.some.injEq] at h
      subst h
      unfold mediumResult
      refine ⟨rget_rset_isSome _ _ _ _ (rget_rset_isSome _ _ _ _ hip),
        rget_rset_isSome _ _ _ _ (rget_rset_isSome _ _ _ _ hsrc), Or.inr ?_, ?_⟩
      · rw [rget_rset_ne _ _ _ _ (by decide), rget_rset_self]
      · rw [rget_rset_self]
        simp [List.length_cons]
    | cons second rest2 =>
      simp only [reconcileRecords] at h
      split at h
      · rw [Option.some.injEq] at h
        subst h
        unfold highResult
        refine ⟨rget_rset_isSome _ _ _ _ (rget_rset_isSome _ _ _ _
            (rget_rset_isSome _ _ _ _ (rget_rset_isSome _ _ _ _ hip))),
          rget_rset_isSome _ _ _ _ (rget_rset_isSome _ _ _ _
            (rget_rset_isSome _ _ _ _ (rget_rset_isSome _ _ _ _ hsrc))), Or.inl ?_, ?_⟩
        · rw [rget_rset_ne _ _ _ _ (by decide), rget_rset_self]
        · rw [rget_rset_self]
          simp [List.length_cons]
      · rw [Option.some.injEq] at h
        subst h
        unfold mediumResult
        refine ⟨rget_rset_isSome _ _ _ _ (rget_rset_isSome _ _ _ _ hip),
          rget_rset_isSome _ _ _ _ (rget_rset_isSome _ _ _ _ hsrc), Or.inr ?_, ?_⟩
        · rw [rget_rset_ne _ _ _ _ (by decide), rget_rset_self]
        · rw [rget_rset_self]
          simp [List.length_cons]

/-- Witness for C10: one successful provider (`ipapi`, record normalized
from an empty body), two failures. -/
theorem multi_source_result_shape_witness :
    (rget [("ip", PValue.vStr "1.2.3.4"), ("source", PValue.vStr "ipapi"),
        ("accuracy", PValue.vStr "medium"), ("sources", PValue.vInt 1)] "ip").isSome = true ∧
    (rget [("ip", PValue.vStr "1.2.3.4"), ("source", PValue.vStr "ipapi"),
        ("accuracy", PValue.vStr "medium"), ("sources", PValue.vInt 1)] "source").isSome = true ∧
    (rget [("ip", PValue.vStr "1.2.3.4"), ("source", PValue.vStr "ipapi"),
        ("accuracy", PValue.vStr "medium"), ("sources", PValue.vInt 1)] "accuracy" =
          some (PValue.vStr "high") ∨
      rget [("ip", PValue.vStr "1.2.3.4"), ("source", PValue.vStr "ipapi"),
        ("accuracy", PValue.vStr "medium"), ("sources", PValue.vInt 1)] "accuracy" =
          some (PValue.vStr "medium")) ∧
    rget [("ip", PValue.vStr "1.2.3.4"), ("source", PValue.vStr "ipapi"),
        ("accuracy", PValue.vStr "medium"), ("sources", PValue.vInt 1)] "sources" =
      some (PValue.vInt 1) := by
  have h := multi_source_result_shape "1.2.3.4"
    (fun name => if name = "ipapi"
      then some [("ip", PValue.vStr "1.2.3.4"), ("source", PValue.vStr "ipapi")] else none)
    (by
      intro name r hfr
      by_cases hn : name = "ipapi"
      · subst hn
        simp only [if_pos, Option.some.injEq, reduceIte] at hfr
        subst hfr
        exact ⟨[], by decide⟩
      · simp [hn] at hfr)
    [("ip", PValue.vStr "1.2.3.4"), ("source", PValue.vStr "ipapi"),
      ("accuracy", PValue.vStr "medium"), ("sources", PValue.vInt 1)]
    (by decide)
  exact h

/-! ### Digit-string lemmas for the IP-validation claim -/

theorem isDig_char_facts (c : Char) (h : isDig c = true) :
    c ≠ '+' ∧ c ≠ '-' ∧ c ≠ '_' ∧ isPySpace c = false := by
  have hb := of_decide_eq_true h
  refine ⟨?_, ?_, ?_, ?_⟩
  · intro e; subst e; exact absurd hb (by decide)
  · intro e; subst e; exact absurd hb (by decide)
  · intro e; subst e; exact absurd hb (by decide)
  · cases hsp : isPySpace c with
    | false => rfl
    | true =>
      rcases of_decide_eq_true hsp with e | e | e | e | e | e <;>
        (subst e; exact absurd hb (by decide))

theorem dropWhile_no_space (p : Char → Bool) :
    ∀ l : List Char, (∀ c ∈ l, p c = false) → l.dropWhile p = l := by
  intro l h
  cases l with
  | nil => rfl
  | cons a t => simp [List.dropWhile_cons, h a (List.mem_cons_self a t)]

theorem pyStrip_digits {l : List Char} (h : l.all isDig = true) : pyStrip l = l := by
  have h1 : ∀ c ∈ l, isPySpace c = false :=
    fun c hc => (isDig_char_facts c (List.all_eq_true.mp h c hc)).2.2.2
  unfold pyStrip
  rw [dropWhile_no_space isPySpace l h1,
    dropWhile_no_space isPySpace l.reverse (fun c hc => h1 c (List.mem_reverse.mp hc)),
    List.reverse_reverse]

theorem pyDigitsTail_digits :
    ∀ l : List Char, l.all isDig = true → pyDigitsTail l = true := by
  intro l
  induction l with
  | nil => intro _; rfl
  | cons c cs ih =>
    intro h
    rw [List.all_cons, Bool.and_eq_true] at h
    obtain ⟨hc, hcs⟩ := h
    have hne : ¬(c = '_') := (isDig_char_facts c hc).2.2.1
    rw [pyDigitsTail.eq_def]
    simp only []
    rw [if_neg hne, hc, ih hcs]
    rfl

theorem pyDigits_digits (l : List Char) (hne : l ≠ []) (h : l.all isDig = true) :
    pyDigits l = true := by
  cases l with
  | nil => exact absurd rfl hne
  | cons c cs =>
    rw [List.all_cons, Bool.and_eq_true] at h
    simp [pyDigits, h.1, pyDigitsTail_digits cs h.2]

theorem undVal_digits {l : List Char} (h : l.all isDig = true) : undVal l = digitsVal l := by
  unfold undVal
  congr 1
  apply List.filter_eq_self.mpr
  intro a ha
  have := (isDig_char_facts a (List.all_eq_true.mp h a ha)).2.2.1
  simpa using this

theorem pyParseInt_digits {l : List Char} (hne : l ≠ []) (h : l.all isDig = true) :
    pyParseIntChars l = some ((digitsVal l : Nat) : Int) := by
  unfold pyParseIntChars
  rw [pyStrip_digits h]
  cases l with
  | nil => exact absurd rfl hne
  | cons c cs =>
    have hc : isDig c = true := by
      rw [List.all_cons, Bool.and_eq_true] at h
      exact h.1
    obtain ⟨hplus, hminus, -, -⟩ := isDig_char_facts c hc
    simp only [parseIntCore, if_neg hplus, if_neg hminus,
      if_pos (pyDigits_digits (c :: cs) (List.cons_ne_nil c cs) h)]
    rw [undVal_digits h]

/-! ### IP-validation claim theorems -/

/-- Claim C8 counterexample: IP validation is not an exact recognizer of
four dot-separated digit octets: Python's `int` also accepts a leading sign,
so `+1.2.3.4` (whose first part is not a digit octet) passes `_validate_ip`. -/
theorem validate_ip_plus_counterexample :
    validateIp "+1.2.3.4" = true ∧ specIPv4Shaped "+1.2.3.4" = false := by
  decide

/-- Claim C8 as amended: validation accepts every string of exactly four
dot-separated all-digit octets with value at most 255 (first conjunct) but
also accepts strings whose parts merely parse as Python integers in
[0, 255], e.g. with a leading `+` (second conjunct); and every string the
validator rejects makes `track_ip` return `None` independently of the
provider oracle, i.e. before any provider call (third conjunct). -/
theorem validate_ip_amended :
    (∀ s : String, specIPv4Shaped s = true → validateIp s = true) ∧
    validateIp "+1.2.3.4" = true ∧
    (∀ (fetch : String → Option Record) (ip : String),
      validateIp ip = false → trackIp fetch ip = none) := by
  refine ⟨?_, by decide, ?_⟩
  · intro s h
    unfold specIPv4Shaped at h
    unfold validateIp
    rw [Bool.and_eq_true] at h ⊢
    obtain ⟨hlen, hall⟩ := h
    refine ⟨hlen, ?_⟩
    rw [List.all_eq_true] at hall ⊢
    intro p hp
    have hcond := hall p hp
    simp only [Bool.and_eq_true, Bool.not_eq_true', decide_eq_true_eq] at hcond
    obtain ⟨⟨hemp, hdig⟩, hbound⟩ := hcond
    have hne : p ≠ [] := by simp_all [List.isEmpty_iff]
    rw [pyParseInt_digits hne hdig]
    simp only [Bool.and_eq_true, decide_eq_true_eq]
    constructor
    · exact_mod_cast Nat.zero_le _
    · exact_mod_cast hbound
  · intro fetch ip h
    simp [trackIp, h]

/-- Witness for the amended C8: a digit-octet address is accepted, and a
rejected address short-circuits `track_ip` without consulting providers. -/
theorem validate_ip_amended_witness :
    validateIp "1.2.3.4" = true ∧
    trackIp (fun _ => none) "999.1.1.1" = none :=
  ⟨validate_ip_amended.1 "1.2.3.4" (by decide),
    validate_ip_amended.2.2 (fun _ => none) "999.1.1.1" (by decide)⟩

end IPTracker
